import Mathlib

/-!
Verification of the ezback trade-settlement subsystem against its
natural-language specification.

The development shallowly embeds the relevant JavaScript source:
* the Offer Dispatcher `sendTradeOfferToUser` and the Offer Tracker
  `trackTradeOffer` / `addUserToJackpot` (jackpot controller),
* the Session Controller state and event handlers (`steamTradeBot.js`),
* the inventory fetcher `getInventory` (`utils/getInventory.js`).

External asynchronous collaborators (the trading network's send callback,
the re-login handshake, HTTP fetches) are modelled by explicit scripts of
their responses, passed as arguments; module-level mutable state is passed
explicitly.
-/

namespace EzBack

/-! ### Offer Dispatcher: `sendTradeOfferToUser` -/

/-- The critical trade-response error messages, from `tradeResponseErrors`
in `steamTradeBot.js` (the commented-out entries of the source list are
omitted, as in the source). -/
def tradeResponseErrors : List String :=
  ["Accepted", "Declined", "Trade Banned Initiator", "Trade Banned Target",
   "Target Already Trading", "Disabled", "Not Logged In", "Cancel",
   "Too Soon", "Too Soon Penalty", "Connection Failed", "Already Trading",
   "Already Has Trade Request", "No Response"]

/-- `MAX_RETRY_ATTEMPTS` from `sendTradeOfferToUser`. -/
def MAX_RETRY_ATTEMPTS : Nat := 1

/-- Result of one `tradeOffer.send` callback from the external network:
either success, or an error carrying `err.message`. -/
inductive SendResult
  | ok
  | err (message : String)
deriving DecidableEq

/-- Result of one `await loginToSteam()` call on the retry path: it either
returns or throws. -/
inductive LoginResult
  | ok
  | err
deriving DecidableEq

/-- The structured error object the dispatcher rejects with
(`{success:false, error, message, code}`; the constant `success:false`
field is omitted). -/
structure ErrorResponse where
  error : String
  message : String
  code : String
deriving DecidableEq

/-- How the promise returned by `sendTradeOfferToUser` ends up:
resolved with the success handle, rejected with a structured error, or
left forever pending (no `resolve`/`reject` call on that path). -/
inductive DispatchOutcome
  | resolved
  | rejected (e : ErrorResponse)
  | pending
deriving DecidableEq

/-- `sendTradeOfferToUser(tradeUrl, items, attempt)` with the external
world scripted: `sends` lists the outcome of each successive
`tradeOffer.send` callback, `logins` the outcome of each successive
`await loginToSteam()`.  Returns the promise outcome together with how
many send attempts and how many re-logins were performed.  An exhausted
script means the corresponding callback/await never fires, leaving the
promise pending. -/
def sendTradeOfferToUser : Nat → List SendResult → List LoginResult →
    DispatchOutcome × Nat × Nat
  | _, [], _ => (.pending, 0, 0)
  | _, .ok :: _, _ => (.resolved, 1, 0)
  | attempt, .err msg :: restSends, logins =>
    if msg ∈ tradeResponseErrors then
      if attempt ≤ MAX_RETRY_ATTEMPTS then
        if msg = "Not Logged In" then
          match logins with
          | [] => (.pending, 1, 0)
          | .ok :: restLogins =>
            let r := sendTradeOfferToUser (attempt + 1) restSends restLogins
            (r.1, r.2.1 + 1, r.2.2 + 1)
          | .err :: _ =>
            (.rejected ⟨"Login Failure",
              "Re-login failed, retrying trade offer failed.",
              "LOGIN_FAILURE"⟩, 1, 1)
        else if msg = "Trade Banned Target" then
          (.rejected ⟨"Trade Banned Target",
            "The target is trade banned. Cannot send trade offer.",
            "TRADE_BANNED_TARGET"⟩, 1, 0)
        else
          -- neither branch of the inner if/else-if fires: the callback
          -- returns without calling resolve or reject
          (.pending, 1, 0)
      else
        (.rejected ⟨"Server Error",
          "There is problem with the server please try again",
          "MAX_RETRY_ATTEMPTS"⟩, 1, 0)
    else
      (.rejected ⟨"Unknown Error", msg, "UNKNOWN_ERROR"⟩, 1, 0)

/-- The dispatcher call in the context of the Session Controller's
`isLoggedIn` flag: the source of `sendTradeOfferToUser` reads no session
state whatsoever, so the flag is taken and discarded. -/
def sendTradeOfferWithSession (_isLoggedIn : Bool) (attempt : Nat)
    (sends : List SendResult) (logins : List LoginResult) :
    DispatchOutcome × Nat × Nat :=
  sendTradeOfferToUser attempt sends logins

/-! ### Round Ledger: `addUserToJackpot` and the tracker `trackTradeOffer` -/

/-- Jackpot status strings from the source (`'waiting'`, `'in_progress'`,
`'completed'`). -/
inductive JackpotStatus
  | waiting
  | in_progress
  | completed
deriving DecidableEq

/-- An item document as used by the credit operation: its id and the
result of `parseFloat(item.price)`, where `none` stands for a missing or
non-numeric price (a NaN parse). -/
structure JItem where
  id : String
  price : Option ℚ
deriving DecidableEq

/-- One entry of `jackpot.participants`: `{user, items, color}`. -/
structure Participant where
  user : String
  items : List String
  color : String
deriving DecidableEq

/-- The jackpot (round) document fields the subsystem mutates. -/
structure Jackpot where
  status : JackpotStatus
  totalValue : ℚ
  participants : List Participant
deriving DecidableEq

/-- `addUserToJackpot(userId, itemIds, jackpotId)` with the database
lookups resolved: `items` are the fetched item documents and
`randomColor` the value of `generateRandomColor()`.  Returns the updated
jackpot document and whether `jackpotManager.startRoundTimer()` was
invoked during this credit. -/
def addUserToJackpot (userId : String) (items : List JItem)
    (randomColor : String) (jackpot : Jackpot) : Jackpot × Bool :=
  -- items.reduce((acc, item) => acc + (isNaN(parseFloat(item.price)) ? 0 : ...), 0)
  let totalValue := items.foldl (fun acc item => acc + item.price.getD 0) 0
  -- jackpot.participants.push({user, items, color})
  let participants := jackpot.participants ++
    [{ user := userId, items := items.map (fun item => item.id), color := randomColor }]
  let totalValue' := jackpot.totalValue + totalValue
  if jackpot.status = .waiting then
    -- allUserIds = participants.map(p => p.user._id.toString())
    let allUserIds : List String := participants.map (fun participant => participant.user)
    -- uniqueUserIds = new Set(allUserIds); check uniqueUserIds.size >= 2
    if 2 ≤ allUserIds.dedup.length then
      ({ status := .in_progress, totalValue := totalValue',
         participants := participants }, true)
    else
      ({ jackpot with totalValue := totalValue', participants := participants }, false)
  else
    ({ jackpot with totalValue := totalValue', participants := participants }, false)

/-- Apply a sequence of credit operations `(userId, items, randomColor)`
to a round, counting how many of them invoked `startRoundTimer`. -/
def creditSeq (jackpot : Jackpot) :
    List (String × List JItem × String) → Jackpot × Nat
  | [] => (jackpot, 0)
  | (u, its, c) :: rest =>
    let r := addUserToJackpot u its c jackpot
    let r' := creditSeq r.1 rest
    (r'.1, (if r.2 then 1 else 0) + r'.2)

/-- `ETradeOfferState` of `steam-tradeoffer-manager`, as compared against
in the tracker's poll callback. -/
inductive ETradeOfferState
  | Invalid
  | Active
  | Accepted
  | Countered
  | Expired
  | Canceled
  | Declined
  | InvalidItems
  | CreatedNeedsConfirmation
  | CanceledBySecondFactor
  | InEscrow
deriving DecidableEq

/-- One tick of `trackTradeOffer`'s 5-second poll: `offer.update` either
errors (`updateErr`) or reports the offer's current state.  Returns the
round ledger after the tick and whether `clearInterval` stopped the
poll.  Only the `Accepted` branch credits the ledger. -/
def trackPollTick (updateErr : Bool) (offerState : ETradeOfferState)
    (userId : String) (items : List JItem) (randomColor : String)
    (jackpot : Jackpot) : Jackpot × Bool :=
  if updateErr then (jackpot, false)
  else if offerState = .Accepted then
    ((addUserToJackpot userId items randomColor jackpot).1, true)
  else if offerState = .Declined then (jackpot, true)
  else (jackpot, false)

/-! ### Session Controller: `steamTradeBot.js` module state and handlers -/

/-- The `SteamUser.EResult` values referenced by the source, plus a few
non-critical ones for contrast. -/
inductive EResult
  | OK
  | Fail
  | LoggedInElsewhere
  | Banned
  | NotLoggedOn
  | NoConnection
  | InvalidPassword
  | Timeout
  | ConnectFailed
  | HandshakeFailed
  | RemoteDisconnect
  | AccountNotFound
  | ServiceUnavailable
  | RateLimitExceeded
  | InvalidLoginAuthCode
  | AccountLocked
  | InvalidItemType
deriving DecidableEq

/-- `criticalErrors` from `steamTradeBot.js`. -/
def criticalErrors : List EResult :=
  [.NotLoggedOn, .NoConnection, .InvalidPassword, .Timeout, .ConnectFailed,
   .HandshakeFailed, .RemoteDisconnect, .AccountNotFound, .ServiceUnavailable,
   .RateLimitExceeded, .InvalidLoginAuthCode, .AccountLocked, .InvalidItemType]

/-- `MAX_RECONNECT_ATTEMPTS` from `steamTradeBot.js`. -/
def MAX_RECONNECT_ATTEMPTS : Nat := 5

/-- The module-level mutable state of `steamTradeBot.js`. -/
structure BotState where
  loginAttempts : Nat
  reconnectAttempts : Nat
  isLoggedIn : Bool
deriving DecidableEq

/-- Externally visible effect of one event handler invocation. -/
inductive BotEffect
  | scheduleLogin (delayMs : Nat)
  | processExit
  | logOnly
deriving DecidableEq

/-- `handleReconnect()`: exit fatally at the ceiling, otherwise schedule
`loginToSteam` after `Math.pow(2, reconnectAttempts) * 1000` ms and
increment the counter. -/
def handleReconnect (s : BotState) : BotState × BotEffect :=
  if MAX_RECONNECT_ATTEMPTS ≤ s.reconnectAttempts then (s, .processExit)
  else
    ({ s with reconnectAttempts := s.reconnectAttempts + 1 },
     .scheduleLogin (2 ^ s.reconnectAttempts * 1000))

/-- The events dispatched to the module's handlers: the client's
`loggedOn`, `error` and `disconnected` events and one tick of the
60-second heartbeat `setInterval`. -/
inductive BotEvent
  | loggedOn
  | clientError (eresult : EResult)
  | disconnected
  | heartbeatTick
deriving DecidableEq

/-- One handler invocation, following the source's `client.on('loggedOn')`,
`client.on('error')`, `client.on('disconnected')` and the heartbeat
callback.  Note that the `loggedOn` handler resets only `loginAttempts`,
and that no handler ever sets `isLoggedIn` back to `false` (both
`isLoggedIn = false` statements are commented out in the source). -/
def stepBot (s : BotState) : BotEvent → BotState × BotEffect
  | .loggedOn => ({ s with loginAttempts := 0, isLoggedIn := true }, .logOnly)
  | .clientError r =>
    if r ∈ criticalErrors then handleReconnect s else (s, .logOnly)
  | .disconnected => if s.isLoggedIn then (s, .logOnly) else handleReconnect s
  | .heartbeatTick => if s.isLoggedIn then (s, .logOnly) else handleReconnect s

/-- Run a sequence of events through the handlers, collecting the effect
of each. -/
def runBot (s : BotState) : List BotEvent → BotState × List BotEffect
  | [] => (s, [])
  | e :: rest =>
    let r := stepBot s e
    let r' := runBot r.1 rest
    (r'.1, r.2 :: r'.2)

/-! ### Inventory fetcher: `utils/getInventory.js` -/

/-- A steam inventory asset (`{assetid, classid, instanceid}`). -/
structure SteamAsset where
  assetid : String
  classid : String
  instanceid : String
deriving DecidableEq

/-- A steam inventory description entry. -/
structure SteamDescription where
  classid : String
  instanceid : String
  market_hash_name : String
  icon_url : String
deriving DecidableEq

/-- `inventoryResponse.data`: `assets`/`descriptions` may be absent
(`undefined`), modelled by `none`. -/
structure InventoryBody where
  assets : Option (List SteamAsset)
  descriptions : Option (List SteamDescription)
deriving DecidableEq

/-- An axios failure: `error.message`, and `(status, data)` of
`error.response` when an HTTP response exists. -/
structure FetchFailure where
  message : String
  response : Option (Nat × String)
deriving DecidableEq

/-- One value of the `groupedItems` map.  A grouped item is created
without a `tradable` property, so that property is `none` (JS
`undefined`). -/
structure GroupedItem where
  market_hash_name : String
  icon_url : String
  price : String
  quantity : Nat
  assetIds : List String
  tradable : Option Nat
deriving DecidableEq

/-- The `error` field of the returned data object: the message, and the
HTTP status and body when `error.response` exists. -/
structure InventoryError where
  message : String
  responseInfo : Option (Nat × String)
deriving DecidableEq

/-- The object `getInventory` returns. -/
structure InventoryData where
  raw : Option InventoryBody
  items : List GroupedItem
  marketnames : List String
  assets : List String
  assetids : List String
  error : Option InventoryError
deriving DecidableEq

/-- `handleError(error)` from `utils/getInventory.js`. -/
def handleError (error : FetchFailure) : InventoryData :=
  match error.response with
  | some sd =>
    { raw := none, items := [], marketnames := [], assets := [], assetids := [],
      error := some { message := error.message, responseInfo := some sd } }
  | none =>
    { raw := none, items := [], marketnames := [], assets := [], assetids := [],
      error := some { message := error.message, responseInfo := none } }

/-- `createMarketPriceMap`: object-assignment semantics, so the last
entry with a given name wins. -/
def createMarketPriceMap (marketApiResponse : List (String × String)) :
    String → Option String :=
  fun name => marketApiResponse.reverse.lookup name

/-- `groupAssetsByMarketHashName(assets, items, marketPriceMap)`.  The JS
object is insertion-ordered, modelled by a list updated in place; the
`marketPriceMap[name] || '0 USD'` fallback also replaces an empty-string
price (JS falsiness). -/
def groupAssetsByMarketHashName (assets : List SteamAsset)
    (items : List SteamDescription) (marketPriceMap : String → Option String) :
    List GroupedItem :=
  assets.foldl (fun groupedItems asset =>
    match items.find? (fun item =>
        item.classid == asset.classid && item.instanceid == asset.instanceid) with
    | none => groupedItems
    | some description =>
      if groupedItems.any (fun g => g.market_hash_name == description.market_hash_name) then
        groupedItems.map (fun g =>
          if g.market_hash_name == description.market_hash_name then
            { g with quantity := g.quantity + 1,
                     assetIds := g.assetIds ++ [asset.assetid] }
          else g)
      else
        groupedItems ++
          [{ market_hash_name := description.market_hash_name,
             icon_url := "https://steamcommunity-a.akamaihd.net/economy/image/"
               ++ description.icon_url,
             price := match marketPriceMap description.market_hash_name with
               | some p => if p == "" then "0 USD" else p
               | none => "0 USD",
             quantity := 1, assetIds := [asset.assetid], tradable := none }])
    []

/-- `getInventory(appid, steamid, contextid, tradeable)` with the two
axios calls scripted (`inventoryFetch` for the inventory URL,
`marketFetch` for the market-price API; the price cache is abstracted
into the latter's result).  `steamid` is `none` for `undefined`/`null`;
a falsy steamid throws, modelled by `Except.error`.  The `appid` and
`contextid` coercions do not affect the modelled behavior and are
omitted. -/
def getInventory (steamid : Option String)
    (inventoryFetch : Except FetchFailure InventoryBody)
    (marketFetch : Except FetchFailure (List (String × String)))
    (tradeable : Bool) : Except String InventoryData :=
  if steamid.getD "" = "" then .error "SteamID is required"
  else
    match inventoryFetch with
    | .error e => .ok (handleError e)
    | .ok body =>
      let assets := body.assets.getD []
      let items := body.descriptions.getD []
      match marketFetch with
      | .error e => .ok (handleError e)
      | .ok marketApiResponse =>
        let marketPriceMap := createMarketPriceMap marketApiResponse
        let groupedItems := groupAssetsByMarketHashName assets items marketPriceMap
        let data : InventoryData :=
          { raw := some body,
            items := groupedItems,
            marketnames := groupedItems.map (fun g => g.market_hash_name),
            assets := assets.map (fun asset => asset.assetid),
            assetids := (groupedItems.map (fun g => g.assetIds)).flatten,
            error := none }
        if tradeable then
          .ok { data with items := data.items.filter (fun x => x.tradable == some 1) }
        else
          .ok data

/-! ## Theorems -/

/-- Every structured rejection produced by the dispatcher carries one of
the four codes that actually occur in the source; in particular no
rejection ever carries a `SESSION_UNAVAILABLE` code. -/
theorem sendTradeOffer_codes (attempt : Nat) (sends : List SendResult)
    (logins : List LoginResult) (e : ErrorResponse)
    (h : (sendTradeOfferToUser attempt sends logins).1 = .rejected e) :
    e.code = "LOGIN_FAILURE" ∨ e.code = "TRADE_BANNED_TARGET" ∨
    e.code = "MAX_RETRY_ATTEMPTS" ∨ e.code = "UNKNOWN_ERROR" := by
  induction sends generalizing attempt logins e with
  | nil => simp [sendTradeOfferToUser] at h
  | cons s rest ih =>
    cases s with
    | ok => simp [sendTradeOfferToUser] at h
    | err msg =>
      rw [sendTradeOfferToUser.eq_def] at h
      simp only [] at h
      by_cases hmem : msg ∈ tradeResponseErrors
      · simp only [hmem, if_true] at h
        by_cases hatt : attempt ≤ MAX_RETRY_ATTEMPTS
        · simp only [hatt, if_true] at h
          by_cases hnli : msg = "Not Logged In"
          · simp only [hnli, if_true] at h
            cases logins with
            | nil => simp at h
            | cons l restLogins =>
              cases l with
              | ok => exact ih (attempt + 1) restLogins e h
              | err =>
                simp at h
                simp [← h]
          · simp only [hnli, if_false] at h
            by_cases htbt : msg = "Trade Banned Target"
            · simp only [htbt, if_true] at h
              simp at h
              simp [← h]
            · simp [htbt] at h
        · simp only [hatt, if_false] at h
          simp at h
          simp [← h]
      · simp only [hmem, if_false] at h
        simp at h
        simp [← h]

/-- On any send attempt that gets a callback, a submission to the
external network was performed (the send count is at least one). -/
theorem sendTradeOffer_send_attempted (attempt : Nat) (s : SendResult)
    (rest : List SendResult) (logins : List LoginResult) :
    1 ≤ (sendTradeOfferToUser attempt (s :: rest) logins).2.1 := by
  cases s with
  | ok => simp [sendTradeOfferToUser]
  | err msg =>
    rw [sendTradeOfferToUser.eq_def]
    simp only []
    split
    · split
      · split
        · cases logins with
          | nil => simp
          | cons l ls => cases l <;> simp
        · split <;> simp
      · simp
    · simp

/-- A resubmission at attempt 2 is terminal: it performs exactly one
further send and no further re-login, whatever the network answers. -/
theorem sendTradeOffer_second_attempt_counts (s : SendResult)
    (rest : List SendResult) (logins : List LoginResult) :
    (sendTradeOfferToUser 2 (s :: rest) logins).2 = (1, 0) := by
  cases s with
  | ok => simp [sendTradeOfferToUser]
  | err msg =>
    rw [sendTradeOfferToUser.eq_def]
    simp only []
    split
    · split
      · next h => simp [MAX_RETRY_ATTEMPTS] at h
      · simp
    · simp

/-- C1: the spec says every path of `sendTradeOfferToUser` settles the
returned promise with a structured result.  The code does not: when the
send error's message is a critical trade-response message other than
`"Not Logged In"` and `"Trade Banned Target"` (here `"Cancel"`) while
the attempt is within the retry ceiling, the callback returns without
calling `resolve` or `reject`, leaving the promise pending forever. -/
theorem C1_unhandled_critical_error_leaves_promise_pending :
    sendTradeOfferToUser 1 [SendResult.err "Cancel"] [] =
      (DispatchOutcome.pending, 1, 0) := by rfl

/-- C2 counterexample: a call made while the Session Controller's
`isLoggedIn` flag is `false` does not fail with `SessionUnavailable`;
the external send is attempted (count 1) and the call resolves with the
success handle. -/
theorem C2_counterexample_no_session_guard :
    sendTradeOfferWithSession false 1 [SendResult.ok] [] =
      (DispatchOutcome.resolved, 1, 0) := by rfl

/-- C2 (amended): the dispatcher performs no session-usability check at
all: its result is independent of the `isLoggedIn` flag, no rejection it
produces ever carries a `SESSION_UNAVAILABLE` code, and a submission is
attempted whenever the network answers the send. -/
theorem C2_submit_ignores_session_state (b : Bool) (attempt : Nat)
    (sends : List SendResult) (logins : List LoginResult) (e : ErrorResponse) :
    sendTradeOfferWithSession b attempt sends logins =
      sendTradeOfferToUser attempt sends logins
    ∧ ((sendTradeOfferToUser attempt sends logins).1 = .rejected e →
        e.code ≠ "SESSION_UNAVAILABLE")
    ∧ (sends ≠ [] → 1 ≤ (sendTradeOfferToUser attempt sends logins).2.1) := by
  refine ⟨rfl, ?_, ?_⟩
  · intro h
    rcases sendTradeOffer_codes attempt sends logins e h with h1 | h1 | h1 | h1 <;>
      simp [h1]
  · intro hne
    cases sends with
    | nil => exact absurd rfl hne
    | cons s rest => exact sendTradeOffer_send_attempted attempt s rest logins

/-- C2 witness: the amended statement at the session flag `false`,
attempt 1, a send that errors with message `"x"`, and no re-logins. -/
theorem C2_submit_ignores_session_state_witness :
    sendTradeOfferWithSession false 1 [SendResult.err "x"] [] =
      sendTradeOfferToUser 1 [SendResult.err "x"] []
    ∧ (⟨"Unknown Error", "x", "UNKNOWN_ERROR"⟩ : ErrorResponse).code ≠
        "SESSION_UNAVAILABLE"
    ∧ 1 ≤ (sendTradeOfferToUser 1 [SendResult.err "x"] []).2.1 :=
  ⟨(C2_submit_ignores_session_state false 1 [SendResult.err "x"] []
      ⟨"Unknown Error", "x", "UNKNOWN_ERROR"⟩).1,
   (C2_submit_ignores_session_state false 1 [SendResult.err "x"] []
      ⟨"Unknown Error", "x", "UNKNOWN_ERROR"⟩).2.1 (by rfl),
   (C2_submit_ignores_session_state false 1 [SendResult.err "x"] []
      ⟨"Unknown Error", "x", "UNKNOWN_ERROR"⟩).2.2 (by simp)⟩

/-- C4: a `"Not Logged In"` send failure on the first attempt triggers
exactly one re-login followed by exactly one resubmission (send count 2,
login count 1, whatever the resubmission's outcome); when the
resubmission also fails with `"Not Logged In"`, the result is the
terminal `MAX_RETRY_ATTEMPTS` structured error with no further re-login
or resubmission; and a re-login failure instead yields the terminal
`LOGIN_FAILURE` structured error with no resubmission. -/
theorem C4_notLoggedIn_single_retry :
    (∀ (s2 : SendResult) (rest : List SendResult) (ls : List LoginResult),
      (sendTradeOfferToUser 1
        (.err "Not Logged In" :: s2 :: rest) (.ok :: ls)).2 = (2, 1))
    ∧ (∀ (rest : List SendResult) (ls : List LoginResult),
      sendTradeOfferToUser 1
          (.err "Not Logged In" :: .err "Not Logged In" :: rest) (.ok :: ls)
        = (.rejected ⟨"Server Error",
            "There is problem with the server please try again",
            "MAX_RETRY_ATTEMPTS"⟩, 2, 1))
    ∧ (∀ (rest : List SendResult) (ls : List LoginResult),
      sendTradeOfferToUser 1 (.err "Not Logged In" :: rest) (.err :: ls)
        = (.rejected ⟨"Login Failure",
            "Re-login failed, retrying trade offer failed.",
            "LOGIN_FAILURE"⟩, 1, 1)) := by
  refine ⟨?_, ?_, ?_⟩
  · intro s2 rest ls
    have h2 := sendTradeOffer_second_attempt_counts s2 rest ls
    have ha : (sendTradeOfferToUser 2 (s2 :: rest) ls).2.1 = 1 := by rw [h2]
    have hb : (sendTradeOfferToUser 2 (s2 :: rest) ls).2.2 = 0 := by rw [h2]
    simp [sendTradeOfferToUser, tradeResponseErrors, MAX_RETRY_ATTEMPTS, ha, hb]
  · intro rest ls
    simp [sendTradeOfferToUser, tradeResponseErrors, MAX_RETRY_ATTEMPTS]
  · intro rest ls
    simp [sendTradeOfferToUser, tradeResponseErrors, MAX_RETRY_ATTEMPTS]

/-- Characterization of a credit on a `waiting` round: the participant
entry is appended, the value added, and the status moves to
`in_progress` with the timer started exactly when the distinct-user
count of the updated participants is at least 2. -/
theorem addUser_waiting_eq (u : String) (its : List JItem) (c : String)
    (tv : ℚ) (ps : List Participant) :
    addUserToJackpot u its c ⟨.waiting, tv, ps⟩ =
      (if 2 ≤ ((ps ++ [(⟨u, its.map (fun item => item.id), c⟩ : Participant)]).map
            (fun participant => participant.user)).dedup.length then
        ({ status := .in_progress,
           totalValue := tv + its.foldl (fun acc item => acc + item.price.getD 0) 0,
           participants := ps ++ [⟨u, its.map (fun item => item.id), c⟩] }, true)
      else
        ({ status := .waiting,
           totalValue := tv + its.foldl (fun acc item => acc + item.price.getD 0) 0,
           participants := ps ++ [⟨u, its.map (fun item => item.id), c⟩] }, false)) :=
  rfl

/-- A credit on an `in_progress` round never changes the status and never
starts the timer. -/
theorem addUser_in_progress_eq (u : String) (its : List JItem) (c : String)
    (tv : ℚ) (ps : List Participant) :
    addUserToJackpot u its c ⟨.in_progress, tv, ps⟩ =
      ({ status := .in_progress,
         totalValue := tv + its.foldl (fun acc item => acc + item.price.getD 0) 0,
         participants := ps ++ [⟨u, its.map (fun item => item.id), c⟩] }, false) :=
  rfl

/-- The participants update is the same append in every branch. -/
theorem addUser_participants_eq (u : String) (its : List JItem) (c : String)
    (j : Jackpot) :
    (addUserToJackpot u its c j).1.participants
      = j.participants ++ [⟨u, its.map (fun item => item.id), c⟩] := by
  obtain ⟨st, tv, ps⟩ := j
  cases st with
  | waiting =>
    rw [addUser_waiting_eq]
    split <;> rfl
  | in_progress => rw [addUser_in_progress_eq]
  | completed => rfl

/-- The totalValue update is the same in every branch. -/
theorem addUser_totalValue_eq (u : String) (its : List JItem) (c : String)
    (j : Jackpot) :
    (addUserToJackpot u its c j).1.totalValue
      = j.totalValue + its.foldl (fun acc item => acc + item.price.getD 0) 0 := by
  obtain ⟨st, tv, ps⟩ := j
  cases st with
  | waiting =>
    rw [addUser_waiting_eq]
    split <;> rfl
  | in_progress => rfl
  | completed => rfl

/-- The credit's folded value is the sum of the per-item valuations. -/
theorem itemsValue_eq_sum (its : List JItem) :
    its.foldl (fun acc item => acc + item.price.getD 0) 0
      = (its.map (fun item => item.price.getD 0)).sum := by
  rw [List.sum_eq_foldl, List.foldl_map]

/-- Once a round is `in_progress`, any further sequence of credits keeps
it `in_progress` and never invokes `startRoundTimer`. -/
theorem creditSeq_in_progress (ops : List (String × List JItem × String))
    (j : Jackpot) (h : j.status = .in_progress) :
    (creditSeq j ops).1.status = .in_progress ∧ (creditSeq j ops).2 = 0 := by
  induction ops generalizing j with
  | nil => exact ⟨h, rfl⟩
  | cons op rest ih =>
    obtain ⟨u, its, c⟩ := op
    obtain ⟨st, tv, ps⟩ := j
    simp only [Jackpot.status] at h
    subst h
    have hrec := ih ⟨.in_progress,
      tv + its.foldl (fun acc item => acc + item.price.getD 0) 0,
      ps ++ [⟨u, its.map (fun item => item.id), c⟩]⟩ rfl
    simp only [creditSeq, addUser_in_progress_eq]
    exact ⟨hrec.1, by simp [hrec.2]⟩

/-- A dedup of a constant list has length at most one. -/
theorem dedup_length_le_one (u : String) (l : List String)
    (hu : ∀ x ∈ l, x = u) : l.dedup.length ≤ 1 := by
  induction l with
  | nil => simp
  | cons a t ih =>
    by_cases hm : a ∈ t
    · rw [List.dedup_cons_of_mem hm]
      exact ih (fun x hx => hu x (List.mem_cons_of_mem a hx))
    · rw [List.dedup_cons_of_not_mem hm]
      cases t with
      | nil => simp
      | cons b t' =>
        exfalso
        apply hm
        have hb : b = u := hu b (by simp)
        have ha : a = u := hu a (by simp)
        rw [ha, ← hb]
        simp

/-- Starting from a `waiting` round, the number of `startRoundTimer`
invocations across any sequence of credits is 1 when the round ends up
`in_progress` and 0 otherwise: the timer fires exactly at the transition
and never again. -/
theorem creditSeq_waiting_timer (ops : List (String × List JItem × String))
    (j : Jackpot) (h : j.status = .waiting) :
    (creditSeq j ops).2 =
      (if (creditSeq j ops).1.status = .in_progress then 1 else 0) := by
  induction ops generalizing j with
  | nil => simp [creditSeq, h]
  | cons op rest ih =>
    obtain ⟨u, its, c⟩ := op
    obtain ⟨st, tv, ps⟩ := j
    simp only [Jackpot.status] at h
    subst h
    simp only [creditSeq, addUser_waiting_eq]
    split
    · have hA := creditSeq_in_progress rest ⟨.in_progress,
        tv + its.foldl (fun acc item => acc + item.price.getD 0) 0,
        ps ++ [⟨u, its.map (fun item => item.id), c⟩]⟩ rfl
      simp [hA.1, hA.2]
    · have hW := ih ⟨.waiting,
        tv + its.foldl (fun acc item => acc + item.price.getD 0) 0,
        ps ++ [⟨u, its.map (fun item => item.id), c⟩]⟩ rfl
      simpa using hW

/-- Credits by a single user never move a `waiting` round to
`in_progress` and never start the timer, however many entries pile up. -/
theorem creditSeq_single_user (u : String)
    (ops : List (String × List JItem × String)) (j : Jackpot)
    (hj : j.status = .waiting)
    (hp : ∀ p ∈ j.participants, p.user = u)
    (hops : ∀ op ∈ ops, op.1 = u) :
    (creditSeq j ops).1.status = .waiting ∧ (creditSeq j ops).2 = 0 := by
  induction ops generalizing j with
  | nil => exact ⟨hj, rfl⟩
  | cons op rest ih =>
    obtain ⟨u', its, c⟩ := op
    obtain ⟨st, tv, ps⟩ := j
    simp only [Jackpot.status] at hj
    subst hj
    simp only [Jackpot.participants] at hp
    have hu' : u' = u := hops (u', its, c) (by simp)
    have hall : ∀ x ∈ (ps ++ [(⟨u', its.map (fun item => item.id), c⟩ : Participant)]).map
        (fun participant => participant.user), x = u := by
      intro x hx
      rcases List.mem_map.1 hx with ⟨p, hpmem, rfl⟩
      rcases List.mem_append.1 hpmem with h1 | h1
      · exact hp p h1
      · simp at h1
        rw [h1]
        exact hu'
    have hded := dedup_length_le_one u _ hall
    simp only [creditSeq, addUser_waiting_eq]
    split
    · omega
    have hW := ih ⟨.waiting,
        tv + its.foldl (fun acc item => acc + item.price.getD 0) 0,
        ps ++ [⟨u', its.map (fun item => item.id), c⟩]⟩ rfl
      (by
        intro p hpmem
        rcases List.mem_append.1 hpmem with h1 | h1
        · exact hp p h1
        · simp at h1
          rw [h1]
          exact hu')
      (fun op hop => hops op (List.mem_cons_of_mem _ hop))
    simpa using hW

/-- C3 counterexample: two successive credits by the same user `"U1"` on
a fresh waiting round produce two participant entries for `"U1"` — the
repeat join appends a duplicate entry instead of extending the existing
one, so a userId can appear more than once among the participants. -/
theorem C3_counterexample_duplicate_participant :
    ((addUserToJackpot "U1" [⟨"B", some 1⟩] "c2"
        (addUserToJackpot "U1" [⟨"A", some 1⟩] "c1"
          ⟨.waiting, 0, []⟩).1).1.participants.map (fun p => p.user))
      = ["U1", "U1"]
    ∧ ¬ ((addUserToJackpot "U1" [⟨"B", some 1⟩] "c2"
        (addUserToJackpot "U1" [⟨"A", some 1⟩] "c1"
          ⟨.waiting, 0, []⟩).1).1.participants.countP
          (fun p => p.user == "U1") ≤ 1) := by
  constructor
  · rfl
  · decide

/-- C3 (amended): every credit appends exactly one new participant entry
at the end of the list, whether or not the user already participates;
the same userId may therefore appear in several entries, and only the
distinct-user count used for the status transition deduplicates. -/
theorem C3_credit_always_appends (u : String) (its : List JItem)
    (c : String) (j : Jackpot) :
    (addUserToJackpot u its c j).1.participants
      = j.participants ++ [⟨u, its.map (fun item => item.id), c⟩] :=
  addUser_participants_eq u its c j

/-- C5: on a `waiting` round, a credit moves the status to `in_progress`
exactly when the set of distinct user IDs across all participant entries
(after the credit) has size at least 2, and `startRoundTimer` fires
exactly at that transition: over any sequence of credits it is invoked
once if the round ends up `in_progress` and never otherwise, and a
single user depositing repeatedly never triggers it. -/
theorem C5_transition_on_distinct_users (j : Jackpot)
    (hj : j.status = .waiting) :
    (∀ (u : String) (its : List JItem) (c : String),
      ((addUserToJackpot u its c j).1.status = .in_progress ↔
        2 ≤ ((addUserToJackpot u its c j).1.participants.map
              (fun p => p.user)).toFinset.card)
      ∧ ((addUserToJackpot u its c j).2 = true ↔
          (addUserToJackpot u its c j).1.status = .in_progress))
    ∧ (∀ ops, (creditSeq j ops).2 =
        (if (creditSeq j ops).1.status = .in_progress then 1 else 0))
    ∧ (∀ (u : String) ops, (∀ p ∈ j.participants, p.user = u) →
        (∀ op ∈ ops, op.1 = u) →
        (creditSeq j ops).1.status = .waiting ∧ (creditSeq j ops).2 = 0) := by
  refine ⟨?_, fun ops => creditSeq_waiting_timer ops j hj,
    fun u ops hp hops => creditSeq_single_user u ops j hj hp hops⟩
  intro u its c
  obtain ⟨st, tv, ps⟩ := j
  simp only [Jackpot.status] at hj
  subst hj
  rw [addUser_waiting_eq]
  split
  · next hc =>
    constructor
    · rw [List.card_toFinset]
      exact ⟨fun _ => hc, fun _ => rfl⟩
    · exact ⟨fun _ => rfl, fun _ => rfl⟩
  · next hc =>
    constructor
    · rw [List.card_toFinset]
      constructor
      · intro h
        simp at h
      · intro h
        exact absurd h hc
    · constructor
      · intro h
        simp at h
      · intro h
        simp at h

/-- C5 witness: the transition criterion on a fresh waiting round, the
timer count over a two-distinct-user sequence, and the single-user
sequence. -/
theorem C5_transition_on_distinct_users_witness :
    (((addUserToJackpot "U1" [] "c" ⟨.waiting, 0, []⟩).1.status = .in_progress ↔
      2 ≤ ((addUserToJackpot "U1" [] "c" ⟨.waiting, 0, []⟩).1.participants.map
            (fun p => p.user)).toFinset.card))
    ∧ (creditSeq ⟨.waiting, 0, []⟩ [("U1", [], "c1"), ("U2", [], "c2")]).2 =
        (if (creditSeq ⟨.waiting, 0, []⟩
              [("U1", [], "c1"), ("U2", [], "c2")]).1.status = .in_progress
         then 1 else 0)
    ∧ ((creditSeq ⟨.waiting, 0, []⟩ [("U1", [], "c1"), ("U1", [], "c2")]).1.status
          = .waiting
        ∧ (creditSeq ⟨.waiting, 0, []⟩ [("U1", [], "c1"), ("U1", [], "c2")]).2 = 0) :=
  ⟨((C5_transition_on_distinct_users ⟨.waiting, 0, []⟩ rfl).1 "U1" [] "c").1,
   (C5_transition_on_distinct_users ⟨.waiting, 0, []⟩ rfl).2.1
     [("U1", [], "c1"), ("U2", [], "c2")],
   (C5_transition_on_distinct_users ⟨.waiting, 0, []⟩ rfl).2.2 "U1"
     [("U1", [], "c1"), ("U1", [], "c2")] (by simp) (by simp)⟩

/-- C8: a credit increments the round's totalValue by exactly the sum of
the item valuations, a missing/non-numeric valuation contributing zero
without failing the credit, and the appended participant entry records
all the item identifiers; in particular items valued 5 and 3 increase
the totalValue of a fresh round by exactly 8 and the entry holds both
ids. -/
theorem C8_totalValue_sum_of_valuations :
    (∀ (u x : String) (its : List JItem) (c : String) (j : Jackpot),
      (addUserToJackpot u its c j).1.totalValue
          = j.totalValue + (its.map (fun item => item.price.getD 0)).sum
      ∧ (addUserToJackpot u its c j).1.participants.getLast?
          = some ⟨u, its.map (fun item => item.id), c⟩
      ∧ (addUserToJackpot u (its ++ [⟨x, none⟩]) c j).1.totalValue
          = (addUserToJackpot u its c j).1.totalValue)
    ∧ ((addUserToJackpot "U1" [⟨"A", some 5⟩, ⟨"B", some 3⟩] "c"
          ⟨.waiting, 0, []⟩).1.totalValue = 8
        ∧ (addUserToJackpot "U1" [⟨"A", some 5⟩, ⟨"B", some 3⟩] "c"
            ⟨.waiting, 0, []⟩).1.participants.map (fun p => p.items)
          = [["A", "B"]]) := by
  refine ⟨fun u x its c j => ⟨?_, ?_, ?_⟩, ?_, rfl⟩
  · rw [addUser_totalValue_eq, itemsValue_eq_sum]
  · rw [addUser_participants_eq, List.getLast?_concat]
  · rw [addUser_totalValue_eq, addUser_totalValue_eq, itemsValue_eq_sum,
      itemsValue_eq_sum]
    simp
  · rw [addUser_totalValue_eq]
    norm_num

/-- C9: when a poll tick observes the offer `Declined`, the tracker stops
polling and performs no ledger mutation: the round's totalValue and
participants are exactly as before and no entry is created. -/
theorem C9_declined_stops_without_credit (u : String) (its : List JItem)
    (c : String) (j : Jackpot) :
    (trackPollTick false .Declined u its c j).1.totalValue = j.totalValue
    ∧ (trackPollTick false .Declined u its c j).1.participants = j.participants
    ∧ (trackPollTick false .Declined u its c j).2 = true :=
  ⟨rfl, rfl, rfl⟩

/-- C6 counterexample: on the trace "successful login, (silent)
disconnect, 60-second heartbeat tick" no reconnect is ever scheduled —
every handler only logs, because `isLoggedIn` was set by the login and
is never reset.  The claim says the heartbeat detects the unusable
session and triggers a reconnect. -/
theorem C6_counterexample_heartbeat_blind_after_login :
    runBot ⟨0, 0, false⟩ [.loggedOn, .disconnected, .heartbeatTick]
      = (⟨0, 0, true⟩, [.logOnly, .logOnly, .logOnly]) := by rfl

/-- C6 (amended): the heartbeat consults only the `isLoggedIn` flag and
no handler ever clears that flag; hence once it is `true`, any event
other than a classified-critical client error — in particular a
heartbeat tick, or the `disconnected` signal of a silent session loss —
leaves the flag `true` and produces only a log line, never a
reconnect. -/
theorem C6_heartbeat_never_detects_after_login (s : BotState)
    (h : s.isLoggedIn = true) (ev : BotEvent)
    (hev : ∀ r, ev = .clientError r → r ∉ criticalErrors) :
    (stepBot s ev).1.isLoggedIn = true ∧ (stepBot s ev).2 = .logOnly := by
  cases ev with
  | loggedOn => exact ⟨rfl, rfl⟩
  | clientError r =>
    have hr := hev r rfl
    simp [stepBot, hr, h]
  | disconnected => simp [stepBot, h]
  | heartbeatTick => simp [stepBot, h]

/-- C6 witness: the amended statement at a logged-in state and a
heartbeat tick. -/
theorem C6_heartbeat_never_detects_after_login_witness :
    (stepBot ⟨0, 0, true⟩ .heartbeatTick).1.isLoggedIn = true
    ∧ (stepBot ⟨0, 0, true⟩ .heartbeatTick).2 = .logOnly :=
  C6_heartbeat_never_detects_after_login ⟨0, 0, true⟩ rfl .heartbeatTick
    (fun r hr => by cases hr)

/-- C7 counterexample: the `loggedOn` handler (successful
re-establishment) resets only `loginAttempts`; from a state with 3
reconnect attempts it leaves `reconnectAttempts` at 3 rather than
resetting it to 0 as the claim states. -/
theorem C7_counterexample_no_reset_on_login :
    (stepBot ⟨4, 3, false⟩ .loggedOn).1 = ⟨0, 3, true⟩
    ∧ (stepBot ⟨4, 3, false⟩ .loggedOn).1.reconnectAttempts ≠ 0 :=
  ⟨rfl, by decide⟩

/-- C7 (amended): each classified-critical error schedules the next
login after `2 ^ reconnectAttempts` seconds (1s, 2s, 4s across three
consecutive critical errors with no successful login in between), and
the process exits fatally once the count has reached the ceiling of 5;
however `reconnectAttempts` is never reset — a successful
re-establishment resets only the login-attempt counter. -/
theorem C7_backoff_without_reset (s : BotState) (r : EResult)
    (hr : r ∈ criticalErrors) :
    (s.reconnectAttempts < MAX_RECONNECT_ATTEMPTS →
      stepBot s (.clientError r)
        = ({ s with reconnectAttempts := s.reconnectAttempts + 1 },
           .scheduleLogin (2 ^ s.reconnectAttempts * 1000)))
    ∧ (MAX_RECONNECT_ATTEMPTS ≤ s.reconnectAttempts →
        (stepBot s (.clientError r)).2 = .processExit)
    ∧ (stepBot s .loggedOn).1.reconnectAttempts = s.reconnectAttempts
    ∧ (runBot ⟨0, 0, true⟩
        [.clientError r, .clientError r, .clientError r]).2
      = [.scheduleLogin 1000, .scheduleLogin 2000, .scheduleLogin 4000] := by
  refine ⟨?_, ?_, rfl, ?_⟩
  · intro hlt
    have hn : ¬ MAX_RECONNECT_ATTEMPTS ≤ s.reconnectAttempts := by omega
    simp [stepBot, hr, handleReconnect, hn]
  · intro hle
    simp [stepBot, hr, handleReconnect, hle]
  · simp [runBot, stepBot, hr, handleReconnect, MAX_RECONNECT_ATTEMPTS]

/-- C7 witness: the amended statement at concrete states, with a
below-ceiling backoff, an at-ceiling fatal exit, and the unchanged
counter on `loggedOn`. -/
theorem C7_backoff_without_reset_witness :
    stepBot ⟨0, 0, true⟩ (.clientError .NoConnection)
      = (⟨0, 0 + 1, true⟩, .scheduleLogin (2 ^ 0 * 1000))
    ∧ (stepBot ⟨0, 5, true⟩ (.clientError .NoConnection)).2 = .processExit
    ∧ (stepBot ⟨7, 2, false⟩ .loggedOn).1.reconnectAttempts = 2 :=
  ⟨(C7_backoff_without_reset ⟨0, 0, true⟩ .NoConnection (by decide)).1 (by decide),
   (C7_backoff_without_reset ⟨0, 5, true⟩ .NoConnection (by decide)).2.1 (by decide),
   (C7_backoff_without_reset ⟨7, 2, false⟩ .NoConnection (by decide)).2.2.1⟩

/-- C10: with a truthy steamid, a failure of either external fetch does
not throw: the result is the `handleError` object, whose item/name/asset
lists are all empty and whose error field is non-null, carrying the
message together with the HTTP status and body exactly when a response
exists; a falsy steamid (absent or empty) instead throws; and on success
the error field is null. -/
theorem C10_getInventory_error_contract (sid : String) (hsid : sid ≠ "")
    (e : FetchFailure) (fi : Except FetchFailure InventoryBody)
    (fm : Except FetchFailure (List (String × String))) (t : Bool)
    (body : InventoryBody) (mkt : List (String × String)) :
    getInventory (some sid) (.error e) fm t = .ok (handleError e)
    ∧ getInventory (some sid) (.ok body) (.error e) t = .ok (handleError e)
    ∧ ((handleError e).items = [] ∧ (handleError e).marketnames = []
        ∧ (handleError e).assets = [] ∧ (handleError e).assetids = []
        ∧ (handleError e).error = some ⟨e.message, e.response⟩)
    ∧ (∀ d, getInventory (some sid) (.ok body) (.ok mkt) t = .ok d →
        d.error = none)
    ∧ getInventory none fi fm t = .error "SteamID is required"
    ∧ getInventory (some "") fi fm t = .error "SteamID is required" := by
  refine ⟨?_, ?_, ?_, ?_, rfl, rfl⟩
  · simp [getInventory, hsid]
  · simp [getInventory, hsid]
  · obtain ⟨msg, resp⟩ := e
    cases resp <;> simp [handleError]
  · intro d h
    cases t with
    | false =>
      simp [getInventory, hsid] at h
      rw [← h]
    | true =>
      simp [getInventory, hsid] at h
      rw [← h]

/-- C10 witness: the contract at a concrete steamid, failure and success
scripts. -/
theorem C10_getInventory_error_contract_witness :
    getInventory (some "76561198") (.error ⟨"Request failed", some (403, "denied")⟩)
        (.ok []) false
      = .ok (handleError ⟨"Request failed", some (403, "denied")⟩)
    ∧ (handleError ⟨"Request failed", some (403, "denied")⟩).error
        = some ⟨"Request failed", some (403, "denied")⟩
    ∧ ({ raw := some ⟨none, none⟩, items := [], marketnames := [], assets := [],
         assetids := [], error := none } : InventoryData).error = none :=
  ⟨(C10_getInventory_error_contract "76561198" (by decide)
      ⟨"Request failed", some (403, "denied")⟩
      (.error ⟨"Request failed", some (403, "denied")⟩) (.ok []) false
      ⟨none, none⟩ []).1,
   (C10_getInventory_error_contract "76561198" (by decide)
      ⟨"Request failed", some (403, "denied")⟩
      (.error ⟨"Request failed", some (403, "denied")⟩) (.ok []) false
      ⟨none, none⟩ []).2.2.1.2.2.2.2,
   (C10_getInventory_error_contract "76561198" (by decide)
      ⟨"Request failed", some (403, "denied")⟩
      (.error ⟨"Request failed", some (403, "denied")⟩) (.ok []) false
      ⟨none, none⟩ []).2.2.2.1
     { raw := some ⟨none, none⟩, items := [], marketnames := [], assets := [],
       assetids := [], error := none } (by rfl)⟩

end EzBack
